import Mathlib

/-!
# Outlier-classification engine: shallow embedding and verification

This file embeds the two Python source files of the repository
(`base_data_science_utils.py` and `outlier_handler.py`) and proves the
specified properties of the outlier-classification engine.

Modelling choices:
* A pandas `DataFrame` becomes a schema (list of named, typed columns) plus
  a list of rows; each row carries its index label (`idx`, the pandas row
  identity) and an association list of cells.  A cell of a numeric column is
  `Option ℚ`: `none` models a missing value (`NaN`/`None`), `some v` a
  present value.  Exact rationals stand for Python floats; the claims under
  verification are about the algorithmic comparisons, not float rounding.
* Column dtypes are `numeric` (pandas `is_numeric_dtype` holds) or `object`
  (everything else); numeric statistics on an `object` column raise
  `TypeError` in pandas, and addressing an absent column raises `KeyError`.
  Python exceptions are modelled by the sum type `PyError`, and fallible
  operations return `Except PyError`.
* `scipy.stats.zscore` uses `ddof = 0`: `z = (v - mean) / std` with
  `std = sqrt(variance)`, `variance = (1/n) * Σ (v - mean)²`.  The test
  `|z| > 3` is embedded in ℚ by the equivalent squared comparison
  `(v - mean)² > 9 * variance` (for a zero-variance column every present
  value equals the mean, so both the `NaN > 3` comparison of the source and
  the squared form reject every row).  The equivalence with
  `|v - mean| > 3 * sqrt variance` over ℝ is proved in `zscore_rule_iff`.
* `pandas.Series.quantile(q)` with the default linear interpolation:
  `h = (n-1)*q`, `Q = x⟦⌊h⌋⟧ + (h - ⌊h⌋) * (x⟦⌊h⌋+1⟧ - x⟦⌊h⌋⟧)` over the
  sorted values.  On an empty column pandas yields `NaN`, which is only ever
  compared against values of an empty row list; the embedding returns `0`
  there, which is likewise never observed.
* The console warning printed by `get_outliers_information` is modelled by
  returning, next to the report mapping, the list of column names for which
  the warning line was printed.  The Python `dict` keyed by column name is
  modelled by an association list in column order.
-/

namespace EDA

/-- Column dtype: `numeric` for dtypes accepted by `pandas.api.types.is_numeric_dtype`,
`object` for non-numeric columns. -/
inductive Dtype
  | numeric
  | object
  deriving DecidableEq

/-- One row of a DataFrame: its pandas index label and its cells, an
association list from column name to (possibly missing) numeric value. -/
structure Row where
  idx : Nat
  cells : List (String × Option ℚ)
  deriving DecidableEq

/-- A pandas DataFrame: schema (column names with dtypes, in column order)
and rows (in row order). -/
structure DataFrame where
  cols : List (String × Dtype)
  rows : List Row
  deriving DecidableEq

/-- First-match lookup of a column's dtype in a schema (pandas resolves
column labels by name). -/
def lookupCol : List (String × Dtype) → String → Option Dtype
  | [], _ => none
  | (n, d) :: rest, c => if n = c then some d else lookupCol rest c

/-- First-match lookup of a cell in a row. -/
def lookupCell : List (String × Option ℚ) → String → Option ℚ
  | [], _ => none
  | (n, v) :: rest, c => if n = c then v else lookupCell rest c

/-- The cell of row `r` in column `column` (missing values are `none`). -/
def Row.getCell (r : Row) (column : String) : Option ℚ :=
  lookupCell r.cells column

/-- The dtype of a named column, `none` if the column is absent. -/
def DataFrame.dtypeOf (df : DataFrame) (column : String) : Option Dtype :=
  lookupCol df.cols column

/-- Whether the named column exists in the DataFrame. -/
def DataFrame.hasColumn (df : DataFrame) (column : String) : Bool :=
  (df.dtypeOf column).isSome

/-- `pandas.api.types.is_numeric_dtype(df[column])`. -/
def DataFrame.isNumeric (df : DataFrame) (column : String) : Bool :=
  decide (df.dtypeOf column = some Dtype.numeric)

/-- The present (non-missing) values of a column, in row order: the data
`pandas` statistics such as `quantile`, `mean` and `std` operate on. -/
def DataFrame.colValues (df : DataFrame) (column : String) : List ℚ :=
  df.rows.filterMap (fun r => r.getCell column)

/-- Floor of a rational as an integer, written out on the numerator and
denominator (`Int.fdiv` is floor division) so that it evaluates by kernel
reduction. -/
def ratFloor (q : ℚ) : ℤ := q.num.fdiv (q.den : ℤ)

/-- `pandas.Series.quantile(q)` with linear interpolation over the sorted
values: `h = (n-1)*q`, result `x⟦j⟧ + (h - j) * (x⟦j+1⟧ - x⟦j⟧)` with
`j = ⌊h⌋`.  (Pandas yields `NaN` for an empty series; that value is only
ever compared over an empty row set, so the `0` returned here is never
observed.) -/
def quantileLinear (xs : List ℚ) (q : ℚ) : ℚ :=
  let s := List.insertionSort (fun a b => a ≤ b) xs
  let n := s.length
  if n = 0 then 0
  else
    let h : ℚ := ((n : ℚ) - 1) * q
    let j : ℕ := (ratFloor h).toNat
    let g : ℚ := h - (j : ℚ)
    s.getD j 0 + g * (s.getD (j + 1) 0 - s.getD j 0)

/-- Mean of a list of values (`numpy` mean; the empty case is never
observed by the embedded operations). -/
def listMean (xs : List ℚ) : ℚ := xs.sum / (xs.length : ℚ)

/-- Population variance (`ddof = 0`), the variance underlying
`scipy.stats.zscore`'s standard deviation. -/
def listVar (xs : List ℚ) : ℚ :=
  ((xs.map (fun v => (v - listMean xs) ^ 2)).sum) / (xs.length : ℚ)

/-- Python exceptions observable from the embedded code. -/
inductive PyError
  | keyError (column : String)
  | typeError (column : String)
  | zeroDivisionError
  deriving DecidableEq

/-- Round a rational to the nearest integer (`⌊q + 1/2⌋`; Python `round`
differs only on exact half-way ties, which none of the verified statements
depend on). -/
def roundNearest (q : ℚ) : ℤ := ratFloor (q + 1 / 2)

/-- Round a rational to `digits` decimal places (models Python `round` on
the exact value). -/
def roundTo (q : ℚ) (digits : ℕ) : ℚ :=
  ((roundNearest (q * 10 ^ digits) : ℤ) : ℚ) / 10 ^ digits

/-- `percentage` from `base_data_science_utils.py`:
`round(100 * float(part)/float(whole), digits)`.  Python float division by
zero raises `ZeroDivisionError`.  The source's `digits` parameter defaults
to `4`; every call in the repository uses the default. -/
def percentage (part whole : ℚ) (digits : ℕ) : Except PyError ℚ :=
  if whole = 0 then .error .zeroDivisionError
  else .ok (roundTo (100 * part / whole) digits)

/-- `OutlierCalculationMethod` enum from `outlier_handler.py`. -/
inductive OutlierCalculationMethod
  | INTERQUARTILE
  | ZSCORE
  deriving DecidableEq

/-- `OutlierHandler`: configured once with a calculation method. -/
structure OutlierHandler where
  calculation_method : OutlierCalculationMethod
  deriving DecidableEq

/-- The row test of `__calculate_outliers_interquartile` on a cell, with
`xs` the column's values: Q1 and Q3 by linear interpolation,
`IQR = Q3 - Q1`, `threshold = 1.5`, flag iff the value lies below
`Q1 - threshold*IQR` or above `Q3 + threshold*IQR` (a missing cell compares
false, as `NaN` does). -/
def interquartile_flag (xs : List ℚ) (x : Option ℚ) : Bool :=
  let Q1 := quantileLinear xs (1 / 4)
  let Q3 := quantileLinear xs (3 / 4)
  let IQR := Q3 - Q1
  let threshold : ℚ := 3 / 2
  match x with
  | some v => decide (v < Q1 - threshold * IQR) || decide (Q3 + threshold * IQR < v)
  | none => false

/-- `OutlierHandler.__calculate_outliers_interquartile`: keep the rows
whose cell passes `interquartile_flag`.  On a non-numeric column the first
`quantile` call raises `TypeError`. -/
def calculate_outliers_interquartile (df : DataFrame) (column : String) :
    Except PyError DataFrame :=
  if df.isNumeric column then
    .ok ⟨df.cols, df.rows.filter (fun r => interquartile_flag (df.colValues column) (r.getCell column))⟩
  else .error (.typeError column)

/-- The row test of `__calculate_outliers_zscore` on a cell, with `xs` the
column's values: `z = |(v - mean) / sqrt variance| > 3`, embedded as the
squared comparison `(v - mean)² > 9 * variance`: for a zero-variance column
every present value of the column equals the mean, so both the source's
`NaN > 3` comparison and the squared form reject every row of the column. -/
def zscore_flag (xs : List ℚ) (x : Option ℚ) : Bool :=
  match x with
  | some v => decide (9 * listVar xs < (v - listMean xs) ^ 2)
  | none => false

/-- `OutlierHandler.__calculate_outliers_zscore`: keep the rows whose cell
passes `zscore_flag`.  On a non-numeric column `scipy.stats.zscore` raises
`TypeError`. -/
def calculate_outliers_zscore (df : DataFrame) (column : String) :
    Except PyError DataFrame :=
  if df.isNumeric column then
    .ok ⟨df.cols, df.rows.filter (fun r => zscore_flag (df.colValues column) (r.getCell column))⟩
  else .error (.typeError column)

/-- `OutlierHandler.__filter_dataframe_out`: drop from `df` every row whose
index occurs in `filt` (`~df.index.isin(filter.index)`). -/
def filter_dataframe_out (df filt : DataFrame) : DataFrame :=
  ⟨df.cols, df.rows.filter (fun r => !(filt.rows.any (fun r2 => r2.idx == r.idx)))⟩

/-- `OutlierHandler.get_missing`: rows whose cell in `column` is missing
(`df[df[column].isna()]`; `df[column]` raises `KeyError` if absent). -/
def OutlierHandler.get_missing (_self : OutlierHandler) (df : DataFrame)
    (column : String) : Except PyError DataFrame :=
  if df.hasColumn column then
    .ok ⟨df.cols, df.rows.filter (fun r => (r.getCell column).isNone)⟩
  else .error (.keyError column)

/-- `OutlierHandler.get_non_missing`: `df.dropna(subset=[column])`
(raises `KeyError` if the column is absent). -/
def OutlierHandler.get_non_missing (_self : OutlierHandler) (df : DataFrame)
    (column : String) : Except PyError DataFrame :=
  if df.hasColumn column then
    .ok ⟨df.cols, df.rows.filter (fun r => (r.getCell column).isSome)⟩
  else .error (.keyError column)

/-- `OutlierHandler.get_outliers`: drop missing values, then dispatch to
the configured calculation method. -/
def OutlierHandler.get_outliers (self : OutlierHandler) (df : DataFrame)
    (column : String) : Except PyError DataFrame := do
  let non_na_df ← self.get_non_missing df column
  match self.calculation_method with
  | .INTERQUARTILE => calculate_outliers_interquartile non_na_df column
  | .ZSCORE => calculate_outliers_zscore non_na_df column

/-- `OutlierHandler.get_non_outliers`: the non-missing rows minus (by row
index) the outlier rows. -/
def OutlierHandler.get_non_outliers (self : OutlierHandler) (df : DataFrame)
    (column : String) : Except PyError DataFrame := do
  let non_na_df ← self.get_non_missing df column
  let outliers_df ← self.get_outliers df column
  .ok (filter_dataframe_out non_na_df outliers_df)

/-- The per-column record stored in the `get_outliers_information` result
dictionary; `sub_dataframes` carries the three optional sub-tables attached
when `output_dataframes` is set. -/
structure ColumnReport where
  missing_values_count : ℕ
  missing_values_percentage : ℚ
  outlier_values_count : ℕ
  outlier_values_percentage : ℚ
  non_outlier_values_count : ℕ
  non_outlier_values_percentage : ℚ
  sub_dataframes : Option (DataFrame × DataFrame × DataFrame)
  deriving DecidableEq

/-- The body of `get_outliers_information`'s loop for one (numeric,
selected) column: the four sub-tables, the three counts, the
invariant-check flag (`True` when the warning line is printed, checked
before the percentages are computed, as in the source), and the report
record with its percentages. -/
def columnInformation (self : OutlierHandler) (df : DataFrame)
    (df_total_rows : ℕ) (output_dataframes : Bool) (column : String) :
    Except PyError (ColumnReport × Bool) := do
  let missing_values_df ← self.get_missing df column
  let _non_missing_values_df ← self.get_non_missing df column
  let outlier_values_df ← self.get_outliers df column
  let non_outlier_values_df ← self.get_non_outliers df column
  let missing_values_count := missing_values_df.rows.length
  let outlier_values_count := outlier_values_df.rows.length
  let non_outlier_values_count := non_outlier_values_df.rows.length
  let warn := decide (missing_values_count + outlier_values_count + non_outlier_values_count ≠ df_total_rows)
  let mp ← percentage (missing_values_count : ℚ) (df_total_rows : ℚ) 4
  let op ← percentage (outlier_values_count : ℚ) (df_total_rows : ℚ) 4
  let np ← percentage (non_outlier_values_count : ℚ) (df_total_rows : ℚ) 4
  .ok ({ missing_values_count := missing_values_count
         missing_values_percentage := mp
         outlier_values_count := outlier_values_count
         outlier_values_percentage := op
         non_outlier_values_count := non_outlier_values_count
         non_outlier_values_percentage := np
         sub_dataframes :=
           if output_dataframes then
             some (missing_values_df, outlier_values_df, non_outlier_values_df)
           else none }, warn)

/-- The loop guard of `get_outliers_information`:
`is_numeric_dtype(df[column]) and (bool(columns) is False or column in columns)`. -/
def selectedCol (df : DataFrame) (columns : List String) (column : String) : Bool :=
  df.isNumeric column && (columns.isEmpty || decide (column ∈ columns))

/-- The `for column in df.columns` loop of `get_outliers_information`:
builds the report mapping (association list in column order) and the list
of columns for which the mismatch warning was printed.  A column is
processed iff `is_numeric_dtype(df[column])` holds and the `columns` filter
is empty (`bool(columns) is False`) or mentions it. -/
def informationLoop (self : OutlierHandler) (df : DataFrame)
    (df_total_rows : ℕ) (output_dataframes : Bool) (columns : List String) :
    List String → Except PyError (List (String × ColumnReport) × List String)
  | [] => .ok ([], [])
  | column :: rest =>
    if selectedCol df columns column then do
      let (report, warn) ← columnInformation self df df_total_rows output_dataframes column
      let (reports, warnings) ← informationLoop self df df_total_rows output_dataframes columns rest
      .ok ((column, report) :: reports, (if warn then [column] else []) ++ warnings)
    else
      informationLoop self df df_total_rows output_dataframes columns rest

/-- `OutlierHandler.get_outliers_information`: iterate over the table's
columns and collect per-column reports and warnings.  The source's
`log_information` flag only prints the already-computed records and does
not affect the returned value, so it is not a parameter here. -/
def OutlierHandler.get_outliers_information (self : OutlierHandler)
    (df : DataFrame) (output_dataframes : Bool) (columns : List String) :
    Except PyError (List (String × ColumnReport) × List String) :=
  informationLoop self df df.rows.length output_dataframes columns
    (df.cols.map Prod.fst)

/-- Row count of a successful result, `0` on error: used to phrase the
mismatch condition of the invariant check. -/
def rowCount : Except PyError DataFrame → ℕ
  | .ok d => d.rows.length
  | .error _ => 0

/-- The condition under which `get_outliers_information` prints the
`WARNING: Value Counts for column ... does not match` line for a column. -/
def mismatchFlag (self : OutlierHandler) (df : DataFrame) (column : String) : Bool :=
  decide (rowCount (self.get_missing df column) + rowCount (self.get_outliers df column)
    + rowCount (self.get_non_outliers df column) ≠ df.rows.length)

/-- Modelled from the spec's error taxonomy: `InvalidColumnError` covers a
requested column that is absent from the table (pandas `KeyError`) or not
numeric when a numeric operation is requested (pandas `TypeError`). -/
def isInvalidColumnKind : PyError → Bool
  | .keyError _ => true
  | .typeError _ => true
  | .zeroDivisionError => false

end EDA

namespace EDA

/-! ## Basic lemmas about the embedded operations -/

theorem hasColumn_of_isNumeric {df : DataFrame} {column : String}
    (h : df.isNumeric column = true) : df.hasColumn column = true := by
  unfold DataFrame.isNumeric at h
  unfold DataFrame.hasColumn
  rw [of_decide_eq_true h]
  rfl

theorem get_missing_eq (self : OutlierHandler) (df : DataFrame) (column : String)
    (h : df.hasColumn column = true) :
    self.get_missing df column =
      .ok ⟨df.cols, df.rows.filter (fun r => (r.getCell column).isNone)⟩ := by
  unfold OutlierHandler.get_missing
  rw [h]
  rfl

theorem get_non_missing_eq (self : OutlierHandler) (df : DataFrame) (column : String)
    (h : df.hasColumn column = true) :
    self.get_non_missing df column =
      .ok ⟨df.cols, df.rows.filter (fun r => (r.getCell column).isSome)⟩ := by
  unfold OutlierHandler.get_non_missing
  rw [h]
  rfl

theorem except_bind_ok {ε α β : Type} (a : α) (f : α → Except ε β) :
    (Except.ok a : Except ε α) >>= f = f a := rfl

theorem except_bind_error {ε α β : Type} (e : ε) (f : α → Except ε β) :
    (Except.error e : Except ε α) >>= f = Except.error e := rfl

theorem filterMap_filter_isSome {α β : Type} (f : α → Option β) (l : List α) :
    (l.filter (fun a => (f a).isSome)).filterMap f = l.filterMap f := by
  induction l with
  | nil => rfl
  | cons a l ih =>
    cases hfa : f a with
    | none => simp [List.filter_cons, List.filterMap_cons, hfa, ih]
    | some b => simp [List.filter_cons, List.filterMap_cons, hfa, ih]

/-- Dropping the rows with a missing value in `column` does not change the
list of present values of `column`. -/
theorem colValues_nonMissing (df : DataFrame) (column : String) :
    (DataFrame.mk df.cols (df.rows.filter (fun r => (r.getCell column).isSome))).colValues column
      = df.colValues column := by
  unfold DataFrame.colValues
  exact filterMap_filter_isSome _ _

theorem get_outliers_INTERQUARTILE_eq {df : DataFrame} {column : String}
    (hnum : df.isNumeric column = true) :
    (OutlierHandler.mk .INTERQUARTILE).get_outliers df column =
      .ok ⟨df.cols, (df.rows.filter (fun r => (r.getCell column).isSome)).filter
        (fun r => interquartile_flag (df.colValues column) (r.getCell column))⟩ := by
  have hcol : df.hasColumn column = true := hasColumn_of_isNumeric hnum
  have hnn := get_non_missing_eq (OutlierHandler.mk .INTERQUARTILE) df column hcol
  have hnum' : (DataFrame.mk df.cols (df.rows.filter (fun r => (r.getCell column).isSome))).isNumeric column = true := hnum
  unfold OutlierHandler.get_outliers
  rw [hnn, except_bind_ok]
  show calculate_outliers_interquartile _ column = _
  unfold calculate_outliers_interquartile
  rw [hnum', colValues_nonMissing]
  rfl

theorem get_outliers_ZSCORE_eq {df : DataFrame} {column : String}
    (hnum : df.isNumeric column = true) :
    (OutlierHandler.mk .ZSCORE).get_outliers df column =
      .ok ⟨df.cols, (df.rows.filter (fun r => (r.getCell column).isSome)).filter
        (fun r => zscore_flag (df.colValues column) (r.getCell column))⟩ := by
  have hcol : df.hasColumn column = true := hasColumn_of_isNumeric hnum
  have hnn := get_non_missing_eq (OutlierHandler.mk .ZSCORE) df column hcol
  have hnum' : (DataFrame.mk df.cols (df.rows.filter (fun r => (r.getCell column).isSome))).isNumeric column = true := hnum
  unfold OutlierHandler.get_outliers
  rw [hnn, except_bind_ok]
  show calculate_outliers_zscore _ column = _
  unfold calculate_outliers_zscore
  rw [hnum', colValues_nonMissing]
  rfl

/-- `get_outliers` on a numeric column succeeds and returns some boolean
selection of the non-missing rows. -/
theorem get_outliers_eq (self : OutlierHandler) {df : DataFrame} {column : String}
    (hnum : df.isNumeric column = true) :
    ∃ q : Row → Bool,
      self.get_outliers df column =
        .ok ⟨df.cols, (df.rows.filter (fun r => (r.getCell column).isSome)).filter q⟩ := by
  cases self with
  | mk m =>
    cases m with
    | INTERQUARTILE => exact ⟨_, get_outliers_INTERQUARTILE_eq hnum⟩
    | ZSCORE => exact ⟨_, get_outliers_ZSCORE_eq hnum⟩

theorem get_non_outliers_eq (self : OutlierHandler) {df : DataFrame} {column : String}
    {O : DataFrame} (hnum : df.isNumeric column = true)
    (hO : self.get_outliers df column = .ok O) :
    self.get_non_outliers df column =
      .ok (filter_dataframe_out
        ⟨df.cols, df.rows.filter (fun r => (r.getCell column).isSome)⟩ O) := by
  have hcol : df.hasColumn column = true := hasColumn_of_isNumeric hnum
  have hnn := get_non_missing_eq self df column hcol
  unfold OutlierHandler.get_non_outliers
  rw [hnn, except_bind_ok, hO, except_bind_ok]

end EDA

namespace EDA

theorem nodup_idx_inj {l : List Row} (h : (l.map Row.idx).Nodup) :
    ∀ r1 ∈ l, ∀ r2 ∈ l, r1.idx = r2.idx → r1 = r2 := by
  intro r1 h1 r2 h2 he
  exact List.inj_on_of_nodup_map h h1 h2 he

/-- Claim C1: for every table with well-defined row identity (no duplicate
index labels, as required by the spec's Tabular Container data model) and
every numeric column, the row sets returned by `get_missing`,
`get_outliers` and `get_non_outliers` are pairwise disjoint by row
identity, together they are exactly the table's rows (as a permutation),
and their sizes sum to the total row count. -/
theorem partition_exhaustive_disjoint (self : OutlierHandler) (df : DataFrame)
    (column : String) (hnum : df.isNumeric column = true)
    (hidx : (df.rows.map Row.idx).Nodup) :
    ∃ M O NO : DataFrame,
      self.get_missing df column = .ok M ∧
      self.get_outliers df column = .ok O ∧
      self.get_non_outliers df column = .ok NO ∧
      (M.rows.map Row.idx).Disjoint (O.rows.map Row.idx) ∧
      (M.rows.map Row.idx).Disjoint (NO.rows.map Row.idx) ∧
      (O.rows.map Row.idx).Disjoint (NO.rows.map Row.idx) ∧
      (M.rows ++ O.rows ++ NO.rows).Perm df.rows ∧
      M.rows.length + O.rows.length + NO.rows.length = df.rows.length := by
  have hcol : df.hasColumn column = true := hasColumn_of_isNumeric hnum
  obtain ⟨q, hO⟩ := get_outliers_eq self hnum
  have hM := get_missing_eq self df column hcol
  have hNO := get_non_outliers_eq self hnum hO
  have hinj := nodup_idx_inj hidx
  set P : Row → Bool := fun r => (r.getCell column).isSome with hP
  have hany : ∀ r ∈ df.rows.filter P,
      (((df.rows.filter P).filter q).any (fun r2 => r2.idx == r.idx)) = q r := by
    intro r hr
    by_cases hq : q r = true
    · rw [hq]
      exact List.any_eq_true.mpr ⟨r, List.mem_filter.mpr ⟨hr, hq⟩, beq_self_eq_true r.idx⟩
    · have hq' : q r = false := eq_false_of_ne_true hq
      rw [hq']
      rw [List.any_eq_false]
      intro r2 hr2 hbeq
      have he : r2.idx = r.idx := by simpa using hbeq
      have hr2' : r2 ∈ df.rows := (List.mem_filter.mp (List.mem_filter.mp hr2).1).1
      have hr' : r ∈ df.rows := (List.mem_filter.mp hr).1
      have : r2 = r := hinj r2 hr2' r hr' he
      rw [this] at hr2
      exact hq ((List.mem_filter.mp hr2).2)
  have hNOrows : (filter_dataframe_out
        ⟨df.cols, df.rows.filter P⟩ ⟨df.cols, (df.rows.filter P).filter q⟩).rows
      = (df.rows.filter P).filter (fun r => !(q r)) := by
    show (df.rows.filter P).filter _ = _
    refine List.filter_congr ?_
    intro r hr
    rw [hany r hr]
  have hMrows : df.rows.filter (fun r => (r.getCell column).isNone)
      = df.rows.filter (fun r => !(P r)) := by
    refine List.filter_congr ?_
    intro r _
    cases hc : r.getCell column <;> simp [hP, hc]
  have permAll : (df.rows.filter (fun r => (r.getCell column).isNone)
      ++ (df.rows.filter P).filter q
      ++ (filter_dataframe_out ⟨df.cols, df.rows.filter P⟩
            ⟨df.cols, (df.rows.filter P).filter q⟩).rows).Perm df.rows := by
    rw [hNOrows, hMrows, List.append_assoc]
    have perm1 : ((df.rows.filter P).filter q
        ++ (df.rows.filter P).filter (fun r => !(q r))).Perm (df.rows.filter P) :=
      List.filter_append_perm q (df.rows.filter P)
    have p1 : (df.rows.filter (fun r => !(P r))
        ++ ((df.rows.filter P).filter q
          ++ (df.rows.filter P).filter (fun r => !(q r)))).Perm
        (df.rows.filter (fun r => !(P r)) ++ df.rows.filter P) :=
      perm1.append_left _
    have p2 : (df.rows.filter (fun r => !(P r)) ++ df.rows.filter P).Perm df.rows :=
      List.perm_append_comm.trans (List.filter_append_perm P df.rows)
    exact p1.trans p2
  refine ⟨_, _, _, hM, hO, hNO, ?_, ?_, ?_, permAll, ?_⟩
  · -- missing vs outliers, disjoint by row identity
    intro i hiM hiO
    obtain ⟨r1, hr1, hi1⟩ := List.mem_map.mp hiM
    obtain ⟨r2, hr2, hi2⟩ := List.mem_map.mp hiO
    have hr1' : r1 ∈ df.rows := (List.mem_filter.mp hr1).1
    have hr2' : r2 ∈ df.rows := (List.mem_filter.mp (List.mem_filter.mp hr2).1).1
    have : r1 = r2 := hinj r1 hr1' r2 hr2' (hi1.trans hi2.symm)
    have h1 : (r1.getCell column).isNone = true := (List.mem_filter.mp hr1).2
    have h2 : P r2 = true := (List.mem_filter.mp (List.mem_filter.mp hr2).1).2
    rw [this] at h1
    cases hc : r2.getCell column
    · rw [hP] at h2; simp [hc] at h2
    · simp [hc] at h1
  · -- missing vs non-outliers, disjoint by row identity
    intro i hiM hiNO
    rw [hNOrows] at hiNO
    obtain ⟨r1, hr1, hi1⟩ := List.mem_map.mp hiM
    obtain ⟨r3, hr3, hi3⟩ := List.mem_map.mp hiNO
    have hr1' : r1 ∈ df.rows := (List.mem_filter.mp hr1).1
    have hr3' : r3 ∈ df.rows := (List.mem_filter.mp (List.mem_filter.mp hr3).1).1
    have : r1 = r3 := hinj r1 hr1' r3 hr3' (hi1.trans hi3.symm)
    have h1 : (r1.getCell column).isNone = true := (List.mem_filter.mp hr1).2
    have h2 : P r3 = true := (List.mem_filter.mp (List.mem_filter.mp hr3).1).2
    rw [this] at h1
    cases hc : r3.getCell column
    · rw [hP] at h2; simp [hc] at h2
    · simp [hc] at h1
  · -- outliers vs non-outliers, disjoint by row identity
    intro i hiO hiNO
    rw [hNOrows] at hiNO
    obtain ⟨r2, hr2, hi2⟩ := List.mem_map.mp hiO
    obtain ⟨r3, hr3, hi3⟩ := List.mem_map.mp hiNO
    have hr2' : r2 ∈ df.rows := (List.mem_filter.mp (List.mem_filter.mp hr2).1).1
    have hr3' : r3 ∈ df.rows := (List.mem_filter.mp (List.mem_filter.mp hr3).1).1
    have heq : r2 = r3 := hinj r2 hr2' r3 hr3' (hi2.trans hi3.symm)
    have h2 : q r2 = true := (List.mem_filter.mp hr2).2
    have h3 : (!(q r3)) = true := (List.mem_filter.mp hr3).2
    rw [heq] at h2
    rw [h2] at h3
    simp at h3
  · -- and the sizes add up to the total row count
    have hlen := permAll.length_eq
    simp only [List.length_append] at hlen
    dsimp only at hlen ⊢
    omega

end EDA

namespace EDA

/-- Claim C2: under the INTERQUARTILE method, a row of a numeric column is
in the returned outlier subset iff it has a present value `v` with
`v < Q1 - 1.5*IQR` or `v > Q3 + 1.5*IQR`, where Q1 and Q3 are the linearly
interpolated quartiles of the column's non-missing values and
`IQR = Q3 - Q1`; the threshold `1.5` is the fixed constant of
`__calculate_outliers_interquartile`. -/
theorem interquartile_rule_iff (df : DataFrame) (column : String) (r : Row)
    (hnum : df.isNumeric column = true) :
    ∃ O : DataFrame,
      (OutlierHandler.mk .INTERQUARTILE).get_outliers df column = .ok O ∧
      (r ∈ O.rows ↔ r ∈ df.rows ∧ ∃ v : ℚ, r.getCell column = some v ∧
        (v < quantileLinear (df.colValues column) (1 / 4)
              - 3 / 2 * (quantileLinear (df.colValues column) (3 / 4)
                  - quantileLinear (df.colValues column) (1 / 4))
          ∨ quantileLinear (df.colValues column) (3 / 4)
              + 3 / 2 * (quantileLinear (df.colValues column) (3 / 4)
                  - quantileLinear (df.colValues column) (1 / 4)) < v)) := by
  refine ⟨_, get_outliers_INTERQUARTILE_eq hnum, ?_⟩
  dsimp only
  rw [List.mem_filter, List.mem_filter]
  constructor
  · rintro ⟨⟨hr, hs⟩, hflag⟩
    cases hc : r.getCell column with
    | none => rw [hc] at hs; simp at hs
    | some v =>
      refine ⟨hr, v, rfl, ?_⟩
      rw [hc] at hflag
      simpa [interquartile_flag] using hflag
  · rintro ⟨hr, v, hc, hcond⟩
    refine ⟨⟨hr, by rw [hc]; rfl⟩, ?_⟩
    rw [hc]
    simpa [interquartile_flag] using hcond

def dfC2 : DataFrame :=
  ⟨[("x", Dtype.numeric)],
   [⟨0, [("x", some 0)]⟩, ⟨1, [("x", some 0)]⟩, ⟨2, [("x", some 0)]⟩,
    ⟨3, [("x", some 0)]⟩, ⟨4, [("x", some 100)]⟩]⟩

theorem interquartile_rule_iff_witness :
    ∃ O : DataFrame,
      (OutlierHandler.mk .INTERQUARTILE).get_outliers dfC2 "x" = .ok O ∧
      ((⟨4, [("x", some 100)]⟩ : Row) ∈ O.rows ↔
        (⟨4, [("x", some 100)]⟩ : Row) ∈ dfC2.rows ∧
        ∃ v : ℚ, (⟨4, [("x", some 100)]⟩ : Row).getCell "x" = some v ∧
        (v < quantileLinear (dfC2.colValues "x") (1 / 4)
              - 3 / 2 * (quantileLinear (dfC2.colValues "x") (3 / 4)
                  - quantileLinear (dfC2.colValues "x") (1 / 4))
          ∨ quantileLinear (dfC2.colValues "x") (3 / 4)
              + 3 / 2 * (quantileLinear (dfC2.colValues "x") (3 / 4)
                  - quantileLinear (dfC2.colValues "x") (1 / 4)) < v)) :=
  interquartile_rule_iff dfC2 "x" ⟨4, [("x", some 100)]⟩ rfl

end EDA

namespace EDA

def dfC1 : DataFrame :=
  ⟨[("x", Dtype.numeric)],
   [⟨0, [("x", none)]⟩, ⟨1, [("x", some 0)]⟩, ⟨2, [("x", some 0)]⟩,
    ⟨3, [("x", some 0)]⟩, ⟨4, [("x", some 0)]⟩, ⟨5, [("x", some 100)]⟩]⟩

theorem partition_exhaustive_disjoint_witness :
    ∃ M O NO : DataFrame,
      (OutlierHandler.mk .INTERQUARTILE).get_missing dfC1 "x" = .ok M ∧
      (OutlierHandler.mk .INTERQUARTILE).get_outliers dfC1 "x" = .ok O ∧
      (OutlierHandler.mk .INTERQUARTILE).get_non_outliers dfC1 "x" = .ok NO ∧
      (M.rows.map Row.idx).Disjoint (O.rows.map Row.idx) ∧
      (M.rows.map Row.idx).Disjoint (NO.rows.map Row.idx) ∧
      (O.rows.map Row.idx).Disjoint (NO.rows.map Row.idx) ∧
      (M.rows ++ O.rows ++ NO.rows).Perm dfC1.rows ∧
      M.rows.length + O.rows.length + NO.rows.length = dfC1.rows.length :=
  partition_exhaustive_disjoint (OutlierHandler.mk .INTERQUARTILE) dfC1 "x"
    rfl (by decide)

theorem listVar_nonneg (xs : List ℚ) : 0 ≤ listVar xs := by
  unfold listVar
  apply div_nonneg
  · apply List.sum_nonneg
    intro x hx
    obtain ⟨v, _, rfl⟩ := List.mem_map.mp hx
    positivity
  · positivity

/-- For `w ≥ 0`: `|y| > 3 * sqrt w` iff `y² > 9 * w` — the bridge between
the source's absolute z-score comparison and its squared embedding. -/
theorem abs_gt_three_sqrt_iff (y w : ℝ) (hw : 0 ≤ w) :
    3 * Real.sqrt w < |y| ↔ 9 * w < y ^ 2 := by
  constructor
  · intro h
    have h0 : 0 ≤ 3 * Real.sqrt w := by positivity
    have h1 := mul_self_lt_mul_self h0 h
    rw [abs_mul_abs_self] at h1
    have hs := Real.sq_sqrt hw
    nlinarith [h1, hs]
  · intro h
    have h1 : Real.sqrt (9 * w) < Real.sqrt (y ^ 2) :=
      Real.sqrt_lt_sqrt (by positivity) h
    rw [Real.sqrt_sq_eq_abs] at h1
    have h9 : Real.sqrt (9 * w) = 3 * Real.sqrt w := by
      rw [show (9 : ℝ) * w = 3 ^ 2 * w by ring,
        Real.sqrt_mul (by positivity) w, Real.sqrt_sq (by norm_num)]
    rw [h9] at h1
    exact h1

/-- Claim C3: under the ZSCORE method, with `m` the mean and
`s = sqrt variance` the (population, `ddof = 0`, as computed by
`scipy.stats.zscore`) standard deviation of the column's non-missing
values, `s > 0`, a row is in the returned outlier subset iff it has a
present value `v` with `|v - m| > 3 * s`; the threshold `3` is the fixed
constant of `__calculate_outliers_zscore`. -/
theorem zscore_rule_iff (df : DataFrame) (column : String) (r : Row)
    (hnum : df.isNumeric column = true)
    (hs : 0 < Real.sqrt ((listVar (df.colValues column) : ℚ) : ℝ)) :
    ∃ O : DataFrame,
      (OutlierHandler.mk .ZSCORE).get_outliers df column = .ok O ∧
      (r ∈ O.rows ↔ r ∈ df.rows ∧ ∃ v : ℚ, r.getCell column = some v ∧
        3 * Real.sqrt ((listVar (df.colValues column) : ℚ) : ℝ)
          < |((v : ℝ)) - ((listMean (df.colValues column) : ℚ) : ℝ)|) := by
  refine ⟨_, get_outliers_ZSCORE_eq hnum, ?_⟩
  dsimp only
  rw [List.mem_filter, List.mem_filter]
  have hvw : (0 : ℝ) ≤ ((listVar (df.colValues column) : ℚ) : ℝ) := by
    exact_mod_cast listVar_nonneg (df.colValues column)
  constructor
  · rintro ⟨⟨hr, hsome⟩, hflag⟩
    cases hc : r.getCell column with
    | none => rw [hc] at hsome; simp at hsome
    | some v =>
      refine ⟨hr, v, rfl, ?_⟩
      rw [hc] at hflag
      have hq : 9 * listVar (df.colValues column)
          < (v - listMean (df.colValues column)) ^ 2 := by
        simpa [zscore_flag] using hflag
      rw [abs_gt_three_sqrt_iff _ _ hvw]
      exact_mod_cast hq
  · rintro ⟨hr, v, hc, hcond⟩
    refine ⟨⟨hr, by rw [hc]; rfl⟩, ?_⟩
    rw [hc]
    rw [abs_gt_three_sqrt_iff _ _ hvw] at hcond
    have hq : 9 * listVar (df.colValues column)
        < (v - listMean (df.colValues column)) ^ 2 := by exact_mod_cast hcond
    simpa [zscore_flag] using hq

def dfC3 : DataFrame :=
  ⟨[("x", Dtype.numeric)], [⟨0, [("x", some 0)]⟩, ⟨1, [("x", some 2)]⟩]⟩

theorem zscore_rule_iff_witness :
    ∃ O : DataFrame,
      (OutlierHandler.mk .ZSCORE).get_outliers dfC3 "x" = .ok O ∧
      ((⟨0, [("x", some 0)]⟩ : Row) ∈ O.rows ↔
        (⟨0, [("x", some 0)]⟩ : Row) ∈ dfC3.rows ∧
        ∃ v : ℚ, (⟨0, [("x", some 0)]⟩ : Row).getCell "x" = some v ∧
        3 * Real.sqrt ((listVar (dfC3.colValues "x") : ℚ) : ℝ)
          < |((v : ℝ)) - ((listMean (dfC3.colValues "x") : ℚ) : ℝ)|) := by
  apply zscore_rule_iff dfC3 "x" ⟨0, [("x", some 0)]⟩ rfl
  have h1 : listVar (dfC3.colValues "x") = 1 := by with_unfolding_all rfl
  rw [h1]
  norm_num

end EDA

namespace EDA

/-- Claim C5: `get_outliers` fails, immediately surfacing an error of the
spec's `InvalidColumnError` kind (pandas `KeyError` for an absent column,
pandas `TypeError` for a non-numeric one), whenever the requested column is
absent from the table or not numeric. -/
theorem invalid_column_error_surfaced (self : OutlierHandler) (df : DataFrame)
    (column : String)
    (h : df.hasColumn column = false ∨ df.isNumeric column = false) :
    ∃ e : PyError, self.get_outliers df column = .error e ∧
      isInvalidColumnKind e = true := by
  cases hd : df.dtypeOf column with
  | none =>
    have hcol : df.hasColumn column = false := by
      simp [DataFrame.hasColumn, hd]
    refine ⟨.keyError column, ?_, rfl⟩
    have hnn : self.get_non_missing df column = .error (.keyError column) := by
      simp [OutlierHandler.get_non_missing, hcol]
    unfold OutlierHandler.get_outliers
    rw [hnn, except_bind_error]
  | some d =>
    cases d with
    | numeric =>
      exfalso
      have h1 : df.hasColumn column = true := by simp [DataFrame.hasColumn, hd]
      have h2 : df.isNumeric column = true := by simp [DataFrame.isNumeric, hd]
      rcases h with h | h
      · rw [h1] at h; exact Bool.noConfusion h
      · rw [h2] at h; exact Bool.noConfusion h
    | object =>
      have hcol : df.hasColumn column = true := by
        simp [DataFrame.hasColumn, hd]
      have hnn := get_non_missing_eq self df column hcol
      have hnum' : (DataFrame.mk df.cols
          (df.rows.filter (fun r => (r.getCell column).isSome))).isNumeric column = false := by
        have : (DataFrame.mk df.cols
            (df.rows.filter (fun r => (r.getCell column).isSome))).dtypeOf column
            = some Dtype.object := hd
        simp [DataFrame.isNumeric, this]
      refine ⟨.typeError column, ?_, rfl⟩
      obtain ⟨m⟩ := self
      cases m with
      | INTERQUARTILE =>
        unfold OutlierHandler.get_outliers
        rw [hnn, except_bind_ok]
        show calculate_outliers_interquartile _ column = _
        simp [calculate_outliers_interquartile, hnum']
      | ZSCORE =>
        unfold OutlierHandler.get_outliers
        rw [hnn, except_bind_ok]
        show calculate_outliers_zscore _ column = _
        simp [calculate_outliers_zscore, hnum']

def dfC5 : DataFrame :=
  ⟨[("a", Dtype.object)], [⟨0, [("a", some 1)]⟩]⟩

theorem invalid_column_error_surfaced_witness :
    (∃ e : PyError, (OutlierHandler.mk .ZSCORE).get_outliers dfC5 "b" = .error e ∧
      isInvalidColumnKind e = true) ∧
    (∃ e : PyError, (OutlierHandler.mk .ZSCORE).get_outliers dfC5 "a" = .error e ∧
      isInvalidColumnKind e = true) :=
  ⟨invalid_column_error_surfaced (OutlierHandler.mk .ZSCORE) dfC5 "b" (Or.inl rfl),
   invalid_column_error_surfaced (OutlierHandler.mk .ZSCORE) dfC5 "a" (Or.inr rfl)⟩

/-- Claim C8: on a column that is empty after missing-value removal, both
rules return an empty outlier subset without error. -/
theorem empty_column_no_outliers (df : DataFrame) (column : String)
    (m : OutlierCalculationMethod)
    (hnum : df.isNumeric column = true)
    (hempty : df.colValues column = []) :
    ∃ O : DataFrame,
      (OutlierHandler.mk m).get_outliers df column = .ok O ∧ O.rows = [] := by
  obtain ⟨q, hO⟩ := get_outliers_eq (OutlierHandler.mk m) hnum
  refine ⟨_, hO, ?_⟩
  dsimp only
  have hall : ∀ r ∈ df.rows, r.getCell column = none := by
    intro r hr
    have h1 : df.rows.filterMap (fun r => r.getCell column) = [] := hempty
    exact List.forall_none_of_filterMap_eq_nil h1 r hr
  have h2 : df.rows.filter (fun r => (r.getCell column).isSome) = [] := by
    rw [List.filter_eq_nil_iff]
    intro r hr
    rw [hall r hr]
    simp
  rw [h2]
  rfl

def dfC8 : DataFrame :=
  ⟨[("x", Dtype.numeric)], [⟨0, [("x", none)]⟩, ⟨1, [("x", none)]⟩]⟩

theorem empty_column_no_outliers_witness :
    (∃ O : DataFrame,
      (OutlierHandler.mk .INTERQUARTILE).get_outliers dfC8 "x" = .ok O ∧ O.rows = []) ∧
    (∃ O : DataFrame,
      (OutlierHandler.mk .ZSCORE).get_outliers dfC8 "x" = .ok O ∧ O.rows = []) :=
  ⟨empty_column_no_outliers dfC8 "x" .INTERQUARTILE rfl rfl,
   empty_column_no_outliers dfC8 "x" .ZSCORE rfl rfl⟩

theorem filterMap_const_some {α β : Type} (f : α → Option β) (k : β) :
    ∀ l : List α, (∀ a ∈ l, f a = some k) → l.filterMap f = List.replicate l.length k := by
  intro l
  induction l with
  | nil => intro _; rfl
  | cons a l ih =>
    intro h
    rw [List.filterMap_cons, h a (List.mem_cons_self a l)]
    simp only [List.length_cons, List.replicate_succ]
    rw [ih (fun a ha => h a (List.mem_cons_of_mem _ ha))]

theorem listMean_replicate (n : ℕ) (k : ℚ) (hn : n ≠ 0) :
    listMean (List.replicate n k) = k := by
  unfold listMean
  rw [List.sum_replicate, List.length_replicate, nsmul_eq_mul]
  have : (n : ℚ) ≠ 0 := Nat.cast_ne_zero.mpr hn
  field_simp

theorem listVar_replicate (n : ℕ) (k : ℚ) (hn : n ≠ 0) :
    listVar (List.replicate n k) = 0 := by
  unfold listVar
  rw [listMean_replicate n k hn, List.map_replicate]
  simp

/-- Claim C9: on a non-empty constant (zero-variance) fully-present numeric
column, the ZSCORE rule returns an empty outlier subset without error (the
source compares `NaN > 3`, which is false for every row; in the squared
embedding the comparison is `0 > 0`). -/
theorem constant_column_zscore_no_outliers (df : DataFrame) (column : String)
    (k : ℚ) (hnum : df.isNumeric column = true) (hne : df.rows ≠ [])
    (hconst : ∀ r ∈ df.rows, r.getCell column = some k) :
    ∃ O : DataFrame,
      (OutlierHandler.mk .ZSCORE).get_outliers df column = .ok O ∧ O.rows = [] := by
  refine ⟨_, get_outliers_ZSCORE_eq hnum, ?_⟩
  dsimp only
  have hlen : df.rows.length ≠ 0 := by
    intro h
    exact hne (List.length_eq_zero.mp h)
  have hvals : df.colValues column = List.replicate df.rows.length k :=
    filterMap_const_some _ k df.rows hconst
  have hvar : listVar (df.colValues column) = 0 := by
    rw [hvals]
    exact listVar_replicate _ k hlen
  have hmean : listMean (df.colValues column) = k := by
    rw [hvals]
    exact listMean_replicate _ k hlen
  rw [List.filter_eq_nil_iff]
  intro r hr
  have hc := hconst r (List.mem_filter.mp hr).1
  simp [zscore_flag, hc, hvar, hmean]

def dfC9 : DataFrame :=
  ⟨[("x", Dtype.numeric)], [⟨0, [("x", some 5)]⟩, ⟨1, [("x", some 5)]⟩]⟩

theorem constant_column_zscore_no_outliers_witness :
    ∃ O : DataFrame,
      (OutlierHandler.mk .ZSCORE).get_outliers dfC9 "x" = .ok O ∧ O.rows = [] :=
  constant_column_zscore_no_outliers dfC9 "x" 5 rfl (by decide)
    (by intro r hr; fin_cases hr <;> rfl)

end EDA

namespace EDA

theorem selectedCol_isNumeric {df : DataFrame} {columns : List String}
    {column : String} (h : selectedCol df columns column = true) :
    df.isNumeric column = true :=
  (Bool.and_eq_true_iff.mp h).1

theorem columnInformation_ok (self : OutlierHandler) (df : DataFrame)
    (odf : Bool) (column : String)
    (hnum : df.isNumeric column = true) (htot : df.rows.length ≠ 0) :
    ∃ (rep : ColumnReport) (warn : Bool),
      columnInformation self df df.rows.length odf column = .ok (rep, warn) ∧
      warn = mismatchFlag self df column ∧
      rep.missing_values_count = rowCount (self.get_missing df column) ∧
      rep.outlier_values_count = rowCount (self.get_outliers df column) ∧
      rep.non_outlier_values_count = rowCount (self.get_non_outliers df column) := by
  have hcol := hasColumn_of_isNumeric hnum
  have hM := get_missing_eq self df column hcol
  have hNN := get_non_missing_eq self df column hcol
  obtain ⟨q, hO⟩ := get_outliers_eq self hnum
  have hNO := get_non_outliers_eq self hnum hO
  have hQ : ((df.rows.length : ℚ)) ≠ 0 := Nat.cast_ne_zero.mpr htot
  have hp : ∀ c : ℕ, percentage (c : ℚ) (df.rows.length : ℚ) 4
      = .ok (roundTo (100 * (c : ℚ) / (df.rows.length : ℚ)) 4) := by
    intro c
    unfold percentage
    rw [if_neg hQ]
  unfold columnInformation
  rw [hM, except_bind_ok, hNN, except_bind_ok, hO, except_bind_ok, hNO, except_bind_ok]
  dsimp only
  rw [hp, except_bind_ok, hp, except_bind_ok, hp, except_bind_ok]
  refine ⟨_, _, rfl, ?_, rfl, rfl, rfl⟩
  unfold mismatchFlag
  rw [hM, hO, hNO]
  rfl

end EDA

namespace EDA

theorem informationLoop_ok (self : OutlierHandler) (df : DataFrame)
    (odf : Bool) (columns : List String) (htot : df.rows.length ≠ 0) :
    ∀ L : List String,
    ∃ (reports : List (String × ColumnReport)) (warnings : List String),
      informationLoop self df df.rows.length odf columns L = .ok (reports, warnings) ∧
      reports.map Prod.fst = L.filter (selectedCol df columns) ∧
      warnings = L.filter (fun c => selectedCol df columns c && mismatchFlag self df c) ∧
      (∀ c ∈ L, selectedCol df columns c = true →
        ∃ rep, (c, rep) ∈ reports ∧
          rep.missing_values_count = rowCount (self.get_missing df c) ∧
          rep.outlier_values_count = rowCount (self.get_outliers df c) ∧
          rep.non_outlier_values_count = rowCount (self.get_non_outliers df c)) := by
  intro L
  induction L with
  | nil =>
    refine ⟨[], [], rfl, rfl, rfl, ?_⟩
    intro c hc
    cases hc
  | cons c L ih =>
    obtain ⟨reports', warnings', hloop, hkeys, hwarns, hreps⟩ := ih
    by_cases hsel : selectedCol df columns c = true
    · have hnum : df.isNumeric c = true := selectedCol_isNumeric hsel
      obtain ⟨rep, warn, hci, hwmf, h1, h2, h3⟩ :=
        columnInformation_ok self df odf c hnum htot
      refine ⟨(c, rep) :: reports',
        (if warn then [c] else []) ++ warnings', ?_, ?_, ?_, ?_⟩
      · show informationLoop self df df.rows.length odf columns (c :: L) = _
        simp only [informationLoop]
        rw [if_pos hsel, hci, except_bind_ok, hloop, except_bind_ok]
      · simp only [List.map_cons, List.filter_cons, hsel, if_pos]
        rw [hkeys]
      · rw [List.filter_cons, hwmf, hwarns]
        cases hmf : mismatchFlag self df c <;> simp [hsel]
      · intro c' hc' hsel'
        rcases List.mem_cons.mp hc' with hc' | hc'
        · subst hc'
          exact ⟨rep, List.mem_cons_self _ _, h1, h2, h3⟩
        · obtain ⟨rep', hmem, g1, g2, g3⟩ := hreps c' hc' hsel'
          exact ⟨rep', List.mem_cons_of_mem _ hmem, g1, g2, g3⟩
    · have hsel' : selectedCol df columns c = false := by
        revert hsel
        cases selectedCol df columns c <;> simp
      refine ⟨reports', warnings', ?_, ?_, ?_, ?_⟩
      · show informationLoop self df df.rows.length odf columns (c :: L) = _
        simp only [informationLoop]
        rw [if_neg hsel]
        exact hloop
      · rw [List.filter_cons, hsel']
        simp only [Bool.false_eq_true, if_neg]
        exact hkeys
      · rw [List.filter_cons, hwarns]
        simp [hsel']
      · intro c' hc' hs'
        rcases List.mem_cons.mp hc' with hc' | hc'
        · subst hc'
          rw [hsel'] at hs'
          exact absurd hs' (by simp)
        · exact hreps c' hc' hs'

end EDA

namespace EDA

theorem informationLoop_keys_of_ok (self : OutlierHandler) (df : DataFrame)
    (total : ℕ) (odf : Bool) (columns : List String) :
    ∀ (L : List String) (reports : List (String × ColumnReport)) (warnings : List String),
      informationLoop self df total odf columns L = .ok (reports, warnings) →
      reports.map Prod.fst = L.filter (selectedCol df columns) ∧
      ∀ c ∈ warnings, c ∈ reports.map Prod.fst := by
  intro L
  induction L with
  | nil =>
    intro reports warnings h
    simp only [informationLoop] at h
    obtain ⟨h1, h2⟩ := Prod.mk.inj (Except.ok.inj h)
    subst h1
    subst h2
    exact ⟨rfl, by intro c hc; cases hc⟩
  | cons c L ih =>
    intro reports warnings h
    simp only [informationLoop] at h
    by_cases hsel : selectedCol df columns c = true
    · rw [if_pos hsel] at h
      cases hci : columnInformation self df total odf c with
      | error e =>
        rw [hci, except_bind_error] at h
        exact absurd h (by simp)
      | ok pr =>
        obtain ⟨rep, warn⟩ := pr
        rw [hci, except_bind_ok] at h
        cases hloop : informationLoop self df total odf columns L with
        | error e =>
          rw [hloop] at h
          exact absurd h (by simp [except_bind_error])
        | ok pw =>
          obtain ⟨reports', warnings'⟩ := pw
          rw [hloop, except_bind_ok] at h
          obtain ⟨h1, h2⟩ := Prod.mk.inj (Except.ok.inj h)
          subst h1
          subst h2
          obtain ⟨hk, hw⟩ := ih reports' warnings' hloop
          constructor
          · simp only [List.map_cons, List.filter_cons, hsel, if_pos]
            rw [hk]
          · intro c' hc'
            rcases List.mem_append.mp hc' with hc' | hc'
            · cases hwn : warn with
              | false => rw [hwn] at hc'; cases hc'
              | true =>
                rw [hwn] at hc'
                rcases List.mem_singleton.mp hc' with rfl
                exact List.mem_cons_self _ _
            · exact List.mem_cons_of_mem _ (hw c' hc')
    · rw [if_neg hsel] at h
      have hsel' : selectedCol df columns c = false := by
        revert hsel
        cases selectedCol df columns c <;> simp
      obtain ⟨hk, hw⟩ := ih reports warnings h
      constructor
      · rw [List.filter_cons, hsel']
        simp only [Bool.false_eq_true, if_neg]
        exact hk
      · exact hw

theorem informationLoop_filter_extra (self : OutlierHandler) (df : DataFrame)
    (total : ℕ) (odf : Bool) (columns : List String) (cn : String)
    (hcols : columns ≠ []) :
    ∀ L : List String, (∀ c ∈ L, c ≠ cn) →
      informationLoop self df total odf (cn :: columns) L
        = informationLoop self df total odf columns L := by
  intro L
  induction L with
  | nil => intro _; rfl
  | cons c L ih =>
    intro h
    have hne : c ≠ cn := h c (List.mem_cons_self c L)
    have hrest : ∀ a ∈ L, a ≠ cn := fun a ha => h a (List.mem_cons_of_mem _ ha)
    have hsel : selectedCol df (cn :: columns) c = selectedCol df columns c := by
      unfold selectedCol
      have h2 : columns.isEmpty = false := by
        cases columns with
        | nil => exact absurd rfl hcols
        | cons a l => rfl
      have h3 : decide (c ∈ cn :: columns) = decide (c ∈ columns) := by
        simp [List.mem_cons, hne]
      rw [h2, h3]
      rfl
    simp only [informationLoop]
    rw [hsel]
    by_cases hs : selectedCol df columns c = true
    · rw [if_pos hs, if_pos hs, ih hrest]
    · rw [if_neg hs, if_neg hs]
      exact ih hrest

theorem columnInformation_zero_rows (self : OutlierHandler) (df : DataFrame)
    (odf : Bool) (column : String)
    (hnum : df.isNumeric column = true) (hrows : df.rows = []) :
    columnInformation self df df.rows.length odf column
      = .error .zeroDivisionError := by
  have hcol := hasColumn_of_isNumeric hnum
  have hM := get_missing_eq self df column hcol
  have hNN := get_non_missing_eq self df column hcol
  obtain ⟨q, hO⟩ := get_outliers_eq self hnum
  have hNO := get_non_outliers_eq self hnum hO
  unfold columnInformation
  rw [hM, except_bind_ok, hNN, except_bind_ok, hO, except_bind_ok, hNO, except_bind_ok]
  dsimp only
  rw [hrows]
  simp only [List.filter_nil, List.length_nil, Nat.cast_zero]
  rw [show percentage 0 0 4 = .error .zeroDivisionError from by simp [percentage]]
  rw [except_bind_error]

theorem informationLoop_zero_rows (self : OutlierHandler) (df : DataFrame)
    (odf : Bool) (hrows : df.rows = []) :
    ∀ L : List String, (∃ c ∈ L, df.isNumeric c = true) →
      informationLoop self df df.rows.length odf [] L
        = .error .zeroDivisionError := by
  intro L
  induction L with
  | nil =>
    rintro ⟨c, hc, _⟩
    cases hc
  | cons c0 L ih =>
    rintro ⟨c, hc, hnum⟩
    by_cases h0 : df.isNumeric c0 = true
    · have hsel : selectedCol df [] c0 = true := by
        unfold selectedCol
        rw [h0]
        rfl
      simp only [informationLoop]
      rw [if_pos hsel,
        columnInformation_zero_rows self df odf c0 h0 hrows, except_bind_error]
    · have hsel : ¬ selectedCol df [] c0 = true := by
        unfold selectedCol
        intro hcon
        exact h0 (Bool.and_eq_true_iff.mp hcon).1
      simp only [informationLoop]
      rw [if_neg hsel]
      apply ih
      rcases List.mem_cons.mp hc with rfl | hc'
      · exact absurd hnum h0
      · exact ⟨c, hc', hnum⟩

end EDA

namespace EDA

def dfC4 : DataFrame := ⟨[("a", Dtype.numeric)], []⟩

/-- Claim C4 as stated is false: Python float division raises
`ZeroDivisionError` when `whole == 0`, so `percentage` has no `0.0`
fallback and `get_outliers_information` on a zero-row table with a numeric
column crashes instead of producing a report. -/
theorem percentage_zero_denominator_counterexample :
    percentage 0 0 4 = .error .zeroDivisionError ∧
    (OutlierHandler.mk .ZSCORE).get_outliers_information dfC4 true []
      = .error .zeroDivisionError := by
  constructor
  · with_unfolding_all rfl
  · with_unfolding_all rfl

/-- Claim C4 (amended): the percentage computation returns
`round(100 * part / whole, 4)` whenever `whole` is nonzero, but when
`whole == 0` it raises `ZeroDivisionError` rather than returning a
fallback, so `get_outliers_information` on a zero-row table that has a
numeric column fails with `ZeroDivisionError` instead of producing a
report. -/
theorem percentage_and_empty_table_amended :
    (∀ part whole : ℚ, whole ≠ 0 →
      percentage part whole 4 = .ok (roundTo (100 * part / whole) 4)) ∧
    (∀ (self : OutlierHandler) (df : DataFrame) (odf : Bool),
      df.rows = [] → (∃ c ∈ df.cols.map Prod.fst, df.isNumeric c = true) →
      self.get_outliers_information df odf [] = .error .zeroDivisionError) := by
  constructor
  · intro part whole h
    unfold percentage
    rw [if_neg h]
  · intro self df odf hrows hex
    unfold OutlierHandler.get_outliers_information
    exact informationLoop_zero_rows self df odf hrows _ hex

theorem percentage_and_empty_table_amended_witness :
    percentage 1 4 4 = .ok (roundTo (100 * 1 / 4) 4) ∧
    (OutlierHandler.mk .INTERQUARTILE).get_outliers_information dfC4 true []
      = .error .zeroDivisionError :=
  ⟨percentage_and_empty_table_amended.1 1 4 (by norm_num),
   percentage_and_empty_table_amended.2 (OutlierHandler.mk .INTERQUARTILE) dfC4 true rfl
     ⟨"a", List.mem_singleton.mpr rfl, rfl⟩⟩

/-- Claim C6: when the three counts of a processed column do not
reconcile with the total row count, the warning is emitted for that column
but the computation is not aborted: the report still succeeds, the
column's entry (with the mismatching counts) is included, and every other
selected numeric column is still present in the report. -/
theorem invariant_violation_warning_nonfatal (self : OutlierHandler)
    (df : DataFrame) (column : String) (odf : Bool) (columns : List String)
    (htot : df.rows.length ≠ 0)
    (hmem : column ∈ df.cols.map Prod.fst)
    (hsel : selectedCol df columns column = true)
    (hmis : mismatchFlag self df column = true) :
    ∃ (reports : List (String × ColumnReport)) (warnings : List String),
      self.get_outliers_information df odf columns = .ok (reports, warnings) ∧
      column ∈ warnings ∧
      (∃ rep : ColumnReport, (column, rep) ∈ reports ∧
        rep.missing_values_count + rep.outlier_values_count
          + rep.non_outlier_values_count ≠ df.rows.length) ∧
      (∀ c ∈ df.cols.map Prod.fst, selectedCol df columns c = true →
        c ∈ reports.map Prod.fst) := by
  obtain ⟨reports, warnings, hloop, hkeys, hwarns, hreps⟩ :=
    informationLoop_ok self df odf columns htot (df.cols.map Prod.fst)
  have hinfo : self.get_outliers_information df odf columns = .ok (reports, warnings) := by
    unfold OutlierHandler.get_outliers_information
    exact hloop
  refine ⟨reports, warnings, hinfo, ?_, ?_, ?_⟩
  · rw [hwarns]
    refine List.mem_filter.mpr ⟨hmem, ?_⟩
    rw [hsel, hmis]
    rfl
  · obtain ⟨rep, hrepmem, h1, h2, h3⟩ := hreps column hmem hsel
    refine ⟨rep, hrepmem, ?_⟩
    rw [h1, h2, h3]
    unfold mismatchFlag at hmis
    exact of_decide_eq_true hmis
  · intro c hc hs
    rw [hkeys]
    exact List.mem_filter.mpr ⟨hc, hs⟩

def dfC6 : DataFrame :=
  ⟨[("x", Dtype.numeric)],
   [⟨0, [("x", some 0)]⟩, ⟨1, [("x", some 0)]⟩, ⟨2, [("x", some 0)]⟩,
    ⟨3, [("x", some 0)]⟩, ⟨3, [("x", some 100)]⟩]⟩

theorem invariant_violation_warning_nonfatal_witness :
    ∃ (reports : List (String × ColumnReport)) (warnings : List String),
      (OutlierHandler.mk .INTERQUARTILE).get_outliers_information dfC6 false []
        = .ok (reports, warnings) ∧
      "x" ∈ warnings ∧
      (∃ rep : ColumnReport, ("x", rep) ∈ reports ∧
        rep.missing_values_count + rep.outlier_values_count
          + rep.non_outlier_values_count ≠ dfC6.rows.length) ∧
      (∀ c ∈ dfC6.cols.map Prod.fst, selectedCol dfC6 [] c = true →
        c ∈ reports.map Prod.fst) :=
  invariant_violation_warning_nonfatal (OutlierHandler.mk .INTERQUARTILE) dfC6 "x"
    false [] (by decide) (List.mem_singleton.mpr rfl) rfl
    (by with_unfolding_all rfl)

/-- Claim C7: a successful report has exactly one entry per selected
column name (in table column order) — a name is selected iff its column is
numeric and the filter is empty or mentions it; a non-numeric or excluded
column has no entry; and every warned column name is one with an entry, so
skipped columns produce no warning. -/
theorem report_covers_numeric_columns (self : OutlierHandler) (df : DataFrame)
    (odf : Bool) (columns : List String)
    (reports : List (String × ColumnReport)) (warnings : List String)
    (hinfo : self.get_outliers_information df odf columns = .ok (reports, warnings)) :
    reports.map Prod.fst = (df.cols.map Prod.fst).filter (selectedCol df columns) ∧
    (∀ c : String, selectedCol df columns c = false → c ∉ reports.map Prod.fst) ∧
    (∀ c ∈ warnings, c ∈ reports.map Prod.fst) := by
  have h := informationLoop_keys_of_ok self df df.rows.length odf columns
    (df.cols.map Prod.fst) reports warnings (by
      unfold OutlierHandler.get_outliers_information at hinfo
      exact hinfo)
  refine ⟨h.1, ?_, h.2⟩
  intro c hcf hmem
  rw [h.1] at hmem
  have := (List.mem_filter.mp hmem).2
  rw [hcf] at this
  exact Bool.noConfusion this

def dfC7 : DataFrame :=
  ⟨[("x", Dtype.numeric), ("s", Dtype.object)],
   [⟨0, [("x", some 0), ("s", none)]⟩, ⟨1, [("x", some 2), ("s", none)]⟩]⟩

theorem report_covers_numeric_columns_witness :
    [("x", ColumnReport.mk 0 0 0 0 2 100 none)].map Prod.fst
        = (dfC7.cols.map Prod.fst).filter (selectedCol dfC7 []) ∧
    (∀ c : String, selectedCol dfC7 [] c = false →
      c ∉ [("x", ColumnReport.mk 0 0 0 0 2 100 none)].map Prod.fst) ∧
    (∀ c ∈ ([] : List String),
      c ∈ [("x", ColumnReport.mk 0 0 0 0 2 100 none)].map Prod.fst) :=
  report_covers_numeric_columns (OutlierHandler.mk .ZSCORE) dfC7 false []
    [("x", ColumnReport.mk 0 0 0 0 2 100 none)] []
    (by with_unfolding_all rfl)

/-- Claim C10: a name in an explicit (non-empty) column filter that is not
a column of the table is silently ignored — the report is the same as
without it and it never acquires an entry. -/
theorem unknown_filter_names_ignored (self : OutlierHandler) (df : DataFrame)
    (odf : Bool) (columns : List String) (cn : String)
    (hcn : cn ∉ df.cols.map Prod.fst)
    (hcols : columns ≠ []) :
    self.get_outliers_information df odf (cn :: columns)
      = self.get_outliers_information df odf columns ∧
    (∀ (reports : List (String × ColumnReport)) (warnings : List String),
      self.get_outliers_information df odf (cn :: columns) = .ok (reports, warnings) →
      cn ∉ reports.map Prod.fst) := by
  constructor
  · unfold OutlierHandler.get_outliers_information
    apply informationLoop_filter_extra self df df.rows.length odf columns cn hcols
    intro c hc heq
    exact hcn (heq ▸ hc)
  · intro reports warnings hinfo
    have hkeys := (informationLoop_keys_of_ok self df df.rows.length odf
      (cn :: columns) (df.cols.map Prod.fst) reports warnings (by
        unfold OutlierHandler.get_outliers_information at hinfo
        exact hinfo)).1
    rw [hkeys]
    intro hmem
    exact hcn (List.mem_filter.mp hmem).1

def dfC10 : DataFrame := ⟨[("x", Dtype.numeric)], [⟨0, [("x", some 1)]⟩]⟩

theorem unknown_filter_names_ignored_witness :
    (OutlierHandler.mk .ZSCORE).get_outliers_information dfC10 false ["y", "x"]
      = (OutlierHandler.mk .ZSCORE).get_outliers_information dfC10 false ["x"] ∧
    (∀ (reports : List (String × ColumnReport)) (warnings : List String),
      (OutlierHandler.mk .ZSCORE).get_outliers_information dfC10 false ["y", "x"]
        = .ok (reports, warnings) →
      "y" ∉ reports.map Prod.fst) :=
  unknown_filter_names_ignored (OutlierHandler.mk .ZSCORE) dfC10 false ["x"] "y"
    (by decide) (by decide)

end EDA
